import Mathlib

/-!
# Verification of the goodie ISBN engine and metadata-resolution pipeline

Shallow embedding of the ISBN extraction/validation engine
(`src/utils/isbn.js`), the metadata cache (`src/api/open-library.js`)
and the provider-chain resolver (background service worker) of the
goodie browser extension, together with proofs of the specified
properties.

JavaScript strings are embedded as `List Char`.  JS semantics notes:
* `parseInt(c, 10)` on a single character succeeds exactly on the ASCII
  digits `'0'..'9'` and yields the digit value; on anything else it is
  `NaN` (embedded as `none`).
* `String.prototype.toUpperCase` is embedded character-wise by
  `Char.toUpper` (ASCII case folding, which is exhaustive on the
  character classes the ISBN code manipulates).
* the regex character class `[\s\-]` is embedded by `isSepChar`
  (the ASCII whitespace characters and the hyphen).
-/

/-- Embedding of a JavaScript string as a list of characters. -/
abbrev JStr := List Char

/-- Convenience conversion from a Lean string literal to a `JStr`. -/
def str (s : String) : JStr := s.data

/-- Characters removed by the normalizer's `[\s\-]` regex class:
ASCII whitespace (space, tab, newline, vertical tab, form feed,
carriage return) or a hyphen. -/
def isSepChar (c : Char) : Bool :=
  c = ' ' || c = '\t' || c = '\n' || c = '\x0b' || c = '\x0c' || c = '\r' || c = '-'

/-- `normalizeISBN` (src/utils/isbn.js): remove all whitespace and hyphen
characters, then uppercase — `isbn.replace(/[\s\-]/g, '').toUpperCase()`. -/
def normalizeISBN (isbn : JStr) : JStr :=
  (isbn.filter (fun c => !isSepChar c)).map Char.toUpper

/-- `parseInt(c, 10)` on the single character `c`: the digit value for
`'0'..'9'`, otherwise `NaN` (embedded as `none`). -/
def parseDigit (c : Char) : Option Nat :=
  if c.isDigit then some (c.toNat - 48) else none

/-- `validateISBN10Checksum` (src/utils/isbn.js): requires length exactly 10;
positions 0..8 must parse as decimal digits, weighted `10 - i`; the check
digit is `'X'` (value 10) or a decimal digit, weighted 1; valid iff the
weighted sum is divisible by 11.  A `parseInt` failure (`NaN`) yields
`false`, embedded by the `Option` do-block defaulting to `false`. -/
def validateISBN10Checksum : JStr → Bool
  | [c0, c1, c2, c3, c4, c5, c6, c7, c8, c9] =>
    (do
      let d0 ← parseDigit c0
      let d1 ← parseDigit c1
      let d2 ← parseDigit c2
      let d3 ← parseDigit c3
      let d4 ← parseDigit c4
      let d5 ← parseDigit c5
      let d6 ← parseDigit c6
      let d7 ← parseDigit c7
      let d8 ← parseDigit c8
      let cd ← if c9 = 'X' then some 10 else parseDigit c9
      pure (decide ((d0 * 10 + d1 * 9 + d2 * 8 + d3 * 7 + d4 * 6 + d5 * 5 +
        d6 * 4 + d7 * 3 + d8 * 2 + cd) % 11 = 0))).getD false
  | _ => false

/-- The accumulating digit loop of `validateISBN13Checksum`: weighted sum of
the digit values with weight 1 at even positions (0-indexed, offset `i`) and
weight 3 at odd positions; `none` when some character fails `parseInt`. -/
def isbn13sum : JStr → Nat → Option Nat
  | [], _ => some 0
  | c :: rest, i => do
    let d ← parseDigit c
    let t ← isbn13sum rest (i + 1)
    pure (d * (if i % 2 = 0 then 1 else 3) + t)

/-- `validateISBN13Checksum` (src/utils/isbn.js): requires length exactly 13,
all characters decimal digits; valid iff the 1/3-alternating weighted sum is
divisible by 10. -/
def validateISBN13Checksum (s : JStr) : Bool :=
  if s.length ≠ 13 then false
  else
    match isbn13sum s 0 with
    | some t => decide (t % 10 = 0)
    | none => false

/-- `isValidISBN` (src/utils/isbn.js): normalize; length 10 delegates to the
ISBN-10 checksum; length 13 additionally requires a `978` or `979` prefix
before delegating to the ISBN-13 checksum; any other length is invalid. -/
def isValidISBN (isbn : JStr) : Bool :=
  let normalized := normalizeISBN isbn
  if normalized.length = 10 then
    validateISBN10Checksum normalized
  else if normalized.length = 13 then
    if !((str "978").isPrefixOf normalized) && !((str "979").isPrefixOf normalized) then
      false
    else
      validateISBN13Checksum normalized
  else
    false

/-- `convertISBN10ToISBN13` (src/utils/isbn.js): normalize; `null` unless the
result has length 10 and passes the ISBN-10 checksum; otherwise drop the check
digit, prepend `"978"`, and append the recomputed ISBN-13 check digit
`(10 - sum % 10) % 10`.  The JS check-digit loop uses the same `parseInt`
accumulation as the ISBN-13 validator; its failure branch is unreachable here
because the base consists of digits only. -/
def convertISBN10ToISBN13 (isbn10 : JStr) : Option JStr :=
  let normalized := normalizeISBN isbn10
  if normalized.length ≠ 10 || !validateISBN10Checksum normalized then
    none
  else
    let base := str "978" ++ normalized.take 9
    match isbn13sum base 0 with
    | some sum => some (base ++ [Char.ofNat (48 + (10 - sum % 10) % 10)])
    | none => none

/-- `formatISBN` (src/utils/isbn.js): normalize; length 13 is hyphenated by
slices `(0,3)-(3,4)-(4,7)-(7,12)-(12)`, length 10 by slices
`(0,1)-(1,4)-(4,9)-(9)`; any other length returns the original input. -/
def formatISBN (isbn : JStr) : JStr :=
  let normalized := normalizeISBN isbn
  if normalized.length = 13 then
    normalized.take 3 ++ ['-'] ++ (normalized.drop 3).take 1 ++ ['-'] ++
      (normalized.drop 4).take 3 ++ ['-'] ++ (normalized.drop 7).take 5 ++ ['-'] ++
      normalized.drop 12
  else if normalized.length = 10 then
    normalized.take 1 ++ ['-'] ++ (normalized.drop 1).take 3 ++ ['-'] ++
      (normalized.drop 4).take 5 ++ ['-'] ++ normalized.drop 9
  else
    isbn

/-! ## Extraction (`extractISBNs` and `ISBN_PATTERNS`)

The two patterns of `src/config/constants.js`:
```
ISBN13: /(?:ISBN(?:-13)?:?\s*)?(?:97[89][\s\-]?(?:\d[\s\-]?){9}\d)/gi
ISBN10: /(?:ISBN(?:-10)?:?\s*)?(?:\d[\s\-]?){9}[\dXx]/gi
```
are embedded as deterministic matchers.  Determinism is extensionally
faithful to the backtracking regex engine here: every optional or starred
sub-pattern (`(?:-13)?`, `:?`, `\s*`, each `[\s\-]?`, and the whole optional
label group) is immediately followed by a sub-pattern that can only accept a
decimal digit (or `[\dXx]`), and no character matched by those optional
parts is a digit, an `X` or an `x` — so declining a greedy choice during
backtracking always fails at the very next position, and the greedy
first choice is the only possible parse at a given start position. -/

/-- The regex class `\s` restricted to ASCII (space, tab, newline,
vertical tab, form feed, carriage return). -/
def isJsSpace (c : Char) : Bool :=
  c = ' ' || c = '\t' || c = '\n' || c = '\x0b' || c = '\x0c' || c = '\r'

/-- Matches the optional label `ISBN(?:-tag)?:?\s*` (case-insensitive) at the
head of `s`; returns `(consumed, rest)`, or `none` when `ISBN` is absent. -/
def matchLabel (tag : JStr) (s : JStr) : Option (JStr × JStr) :=
  if (s.take 4).map Char.toUpper = str "ISBN" then
    let r0 := s.drop 4
    let (dash, r1) :=
      if ('-' :: tag).isPrefixOf r0 then ('-' :: tag, r0.drop (tag.length + 1))
      else ([], r0)
    let (col, r2) :=
      match r1 with
      | ':' :: t => ([':'], t)
      | _ => ([], r1)
    some (s.take 4 ++ dash ++ col ++ r2.takeWhile isJsSpace, r2.dropWhile isJsSpace)
  else
    none

/-- The optional separator `[\s\-]?` (greedy): consume one whitespace or
hyphen when present. -/
def optSep : JStr → JStr × JStr
  | [] => ([], [])
  | c :: rest => if isSepChar c then ([c], rest) else ([], c :: rest)

/-- `(?:\d[\s\-]?){n}`: `n` repetitions of a decimal digit followed by an
optional separator; returns `(consumed, rest)`. -/
def digitGroups : Nat → JStr → Option (JStr × JStr)
  | 0, s => some ([], s)
  | _ + 1, [] => none
  | n + 1, c :: rest =>
    if c.isDigit then
      let (sep, r1) := optSep rest
      match digitGroups n r1 with
      | some (grp, r2) => some (c :: sep ++ grp, r2)
      | none => none
    else
      none

/-- The ISBN-13 body `97[89][\s\-]?(?:\d[\s\-]?){9}\d` at the head of `s`. -/
def body13 (s : JStr) : Option (JStr × JStr) :=
  match s with
  | c1 :: c2 :: c3 :: rest =>
    if c1 = '9' && c2 = '7' && (c3 = '8' || c3 = '9') then
      let (sep, r1) := optSep rest
      match digitGroups 9 r1 with
      | some (grp, r2) =>
        match r2 with
        | d :: r3 => if d.isDigit then some ([c1, c2, c3] ++ sep ++ grp ++ [d], r3) else none
        | [] => none
      | none => none
    else
      none
  | _ => none

/-- The ISBN-10 body `(?:\d[\s\-]?){9}[\dXx]` at the head of `s`. -/
def body10 (s : JStr) : Option (JStr × JStr) :=
  match digitGroups 9 s with
  | some (grp, r) =>
    match r with
    | d :: r2 => if d.isDigit || d = 'X' || d = 'x' then some (grp ++ [d], r2) else none
    | [] => none
  | none => none

/-- One full-pattern attempt `(?:ISBN(?:-tag)?:?\s*)?BODY` at the head of
`s`.  When the label matches but the body after it fails, declining the
label would restart the body at `I`/`i`, which no body accepts, so the
whole position fails. -/
def tryMatchAt (tag : JStr) (body : JStr → Option (JStr × JStr)) (s : JStr) :
    Option (JStr × JStr) :=
  match matchLabel tag s with
  | some (lab, rest) =>
    match body rest with
    | some (b, r) => some (lab ++ b, r)
    | none => none
  | none => body s

/-- `text.matchAll(pattern)`: leftmost, non-overlapping matches; after a
match the scan resumes right after it, after a failed position it advances
one character.  The fuel argument (instantiated with `text.length + 1`)
bounds the number of steps, each of which consumes at least one character. -/
def scanAll (try1 : JStr → Option (JStr × JStr)) : Nat → JStr → List JStr
  | 0, _ => []
  | _ + 1, [] => []
  | fuel + 1, c :: rest =>
    match try1 (c :: rest) with
    | some (m, r) => m :: scanAll try1 fuel r
    | none => scanAll try1 fuel rest

/-- All matches of the ISBN-13 pattern in `text`. -/
def matchAll13 (text : JStr) : List JStr :=
  scanAll (tryMatchAt (str "13") body13) (text.length + 1) text

/-- All matches of the ISBN-10 pattern in `text`. -/
def matchAll10 (text : JStr) : List JStr :=
  scanAll (tryMatchAt (str "10") body10) (text.length + 1) text

/-- `match[0].replace(/ISBN(?:-tag)?:?\s*/i, '')`: remove the first
(leftmost, greedy) occurrence of the label. -/
def stripLabel (tag : JStr) : JStr → JStr
  | [] => []
  | c :: rest =>
    match matchLabel tag (c :: rest) with
    | some (_, r) => r
    | none => c :: stripLabel tag rest

/-- `extractISBNs` (src/utils/isbn.js): scan for ISBN-13 pattern matches
first, then ISBN-10 matches; for each raw match strip the label, normalize,
re-check the expected length and validity, and insert into an
insertion-ordered set; return the set's contents in insertion order. -/
def extractISBNs (text : JStr) : List JStr :=
  let found13 := (matchAll13 text).foldl
    (fun acc m =>
      let isbn := normalizeISBN (stripLabel (str "13") m)
      if isbn.length = 13 && isValidISBN isbn && !acc.contains isbn then acc ++ [isbn]
      else acc) []
  (matchAll10 text).foldl
    (fun acc m =>
      let isbn := normalizeISBN (stripLabel (str "10") m)
      if isbn.length = 10 && isValidISBN isbn && !acc.contains isbn then acc ++ [isbn]
      else acc) found13

/-- The normalized ISBN-13 candidates accepted by `extractISBNs`' length and
validity re-check, in scan order (duplicates retained). -/
def accepted13 (text : JStr) : List JStr :=
  ((matchAll13 text).map (fun m => normalizeISBN (stripLabel (str "13") m))).filter
    (fun isbn => isbn.length = 13 && isValidISBN isbn)

/-- The normalized ISBN-10 candidates accepted by `extractISBNs`' length and
validity re-check, in scan order (duplicates retained). -/
def accepted10 (text : JStr) : List JStr :=
  ((matchAll10 text).map (fun m => normalizeISBN (stripLabel (str "10") m))).filter
    (fun isbn => isbn.length = 10 && isValidISBN isbn)

/-- First-occurrence-preserving deduplication. -/
def dedupFirst (l : List JStr) : List JStr :=
  l.foldl (fun acc x => if acc.contains x then acc else acc ++ [x]) []

/-- The step of the JS `Set` insertion fold: append when new. -/
def insertNew (acc : List JStr) (x : JStr) : List JStr :=
  if acc.contains x then acc else acc ++ [x]

/-! ## Book metadata, the metadata cache, and the provider chain

`src/api/open-library.js` stores the metadata cache as an object mapping
ISBN keys to `{data, timestamp}` records inside `chrome.storage.local`;
the background worker (`handleFetchBookInfo` / `handleGetDetectedBooks`)
orchestrates the Google Books → Open Library fallback chain.  Network and
storage are embedded as explicit state: a provider endpoint's behaviour on
one request is an `EndpointOutcome` (throw, miss, or a response parsing to
some metadata — response parsing itself is abstracted at the provider
boundary), and the persistent cache object is passed and returned
explicitly.  `Date.now()` is an explicit `now : Nat` argument
(milliseconds). -/

/-- The canonical book-metadata shape produced by the provider parsers.
The not-found sentinel of `handleGetDetectedBooks` omits the last five
fields in JS; they are embedded as their empty defaults. -/
structure BookMetadata where
  isbn : JStr
  title : String
  authors : List String
  description : String
  thumbnail : String
  publishedDate : String
  publisher : String
  pageCount : Nat
  categories : List String
  language : String
  source : String
  deriving DecidableEq, Repr

/-- One cached record: `{data: bookInfo, timestamp: Date.now()}`
(src/api/open-library.js, `cacheBookInfo`). -/
structure CacheEntry where
  data : BookMetadata
  timestamp : Nat
  deriving DecidableEq, Repr

/-- The persistent cache object: ISBN keys mapped to entries, in property
order. -/
abbrev Cache := List (JStr × CacheEntry)

/-- JS object property read `cache[isbn]`. -/
def lookupCache : Cache → JStr → Option CacheEntry
  | [], _ => none
  | (k, v) :: rest, isbn => if k = isbn then some v else lookupCache rest isbn

/-- JS object property write `cache[isbn] = entry`: overwrite in place, or
append a new property. -/
def setCache : Cache → JStr → CacheEntry → Cache
  | [], isbn, e => [(isbn, e)]
  | (k, v) :: rest, isbn, e =>
    if k = isbn then (isbn, e) :: rest else (k, v) :: setCache rest isbn e

/-- `DEFAULTS.CACHE_TTL_MS` (src/config/constants.js): 24 hours. -/
def CACHE_TTL_MS : Nat := 24 * 60 * 60 * 1000

/-- `getCachedBookInfo` (src/api/open-library.js): absent when no entry
exists, or when `now - cached.timestamp > CACHE_TTL_MS` (lazy expiry);
otherwise the cached metadata. -/
def getCachedBookInfo (cache : Cache) (isbn : JStr) (now : Nat) : Option BookMetadata :=
  match lookupCache cache isbn with
  | none => none
  | some cached => if now - cached.timestamp > CACHE_TTL_MS then none else some cached.data

/-- `cacheBookInfo` (src/api/open-library.js): unconditionally store
`{data: bookInfo, timestamp: Date.now()}` under the ISBN key. -/
def cacheBookInfo (cache : Cache) (isbn : JStr) (bookInfo : BookMetadata) (now : Nat) :
    Cache :=
  setCache cache isbn { data := bookInfo, timestamp := now }

/-- A JSON-safe value stored in the persistent store; metadata objects are
kept abstract since only the top-level record shape is at issue. -/
inductive JVal where
  | num (n : Nat)
  | obj (m : BookMetadata)
  deriving DecidableEq, Repr

/-- The plain record serialized for one cache entry: the object literal
`{data: bookInfo, timestamp: Date.now()}` has exactly the properties
`data` and `timestamp`, in that order. -/
def serializeCacheEntry (e : CacheEntry) : List (String × JVal) :=
  [("data", JVal.obj e.data), ("timestamp", JVal.num e.timestamp)]

/-- Behaviour of one provider endpoint on one request: it may throw
(network error / non-success status / unparseable body), return no result,
or return a response that parses to metadata `m`. -/
inductive EndpointOutcome where
  | throws
  | miss
  | hit (m : BookMetadata)
  deriving DecidableEq, Repr

namespace GoogleBooks

/-- `fetchBookInfo` (src/api/google-books.js): check the metadata cache
(when `useCache`), then query the Google Books volumes endpoint; the
surrounding `try/catch` downgrades a thrown error (network failure, non-ok
status) to `null`, a response with zero items is `null`, and a parsed
result is written to the cache before being returned.  The module's private
`getCachedBookInfo` / `cacheBookInfo` are line-for-line copies of the Open
Library ones over the same `BOOK_METADATA_CACHE` key, so they are embedded
by the shared cache operations; the optional API key only parameterizes the
request URL, and response parsing (`parseGoogleBooksResponse`) is
abstracted at the provider boundary into the `EndpointOutcome`. -/
def fetchBookInfo (outcome : EndpointOutcome) (isbn : JStr) (useCache : Bool)
    (cache : Cache) (now : Nat) : Option BookMetadata × Cache :=
  let fromNetwork : Option BookMetadata × Cache :=
    match outcome with
    | .throws => (none, cache)
    | .miss => (none, cache)
    | .hit book => (some book, cacheBookInfo cache isbn book now)
  if useCache then
    match getCachedBookInfo cache isbn now with
    | some cachedData => (some cachedData, cache)
    | none => fromNetwork
  else
    fromNetwork

end GoogleBooks

namespace OpenLibrary

/-- Behaviour of the two Open Library endpoints on one request. -/
structure Env where
  booksAPI : EndpointOutcome
  isbnEndpoint : EndpointOutcome
  deriving DecidableEq, Repr

/-- `fetchFromBooksAPI` (src/api/open-library.js): its `try/catch` returns
`null` on a thrown error; a response without the `ISBN:<isbn>` key is
`null`; otherwise the parsed metadata. -/
def fetchFromBooksAPI : EndpointOutcome → Option BookMetadata
  | .throws => none
  | .miss => none
  | .hit m => some m

/-- `fetchFromISBNEndpoint` (src/api/open-library.js): `null` on a thrown
error or non-ok status; otherwise the parsed metadata. -/
def fetchFromISBNEndpoint : EndpointOutcome → Option BookMetadata
  | .throws => none
  | .miss => none
  | .hit m => some m

/-- `fetchBookInfo` (src/api/open-library.js): check the cache (when
`useCache`), then the books API, then the ISBN endpoint; a network success
is written to the cache before being returned.  Returns the result and the
updated cache object. -/
def fetchBookInfo (env : Env) (isbn : JStr) (useCache : Bool) (cache : Cache)
    (now : Nat) : Option BookMetadata × Cache :=
  let fromNetwork : Option BookMetadata × Cache :=
    match fetchFromBooksAPI env.booksAPI with
    | some bookData => (some bookData, cacheBookInfo cache isbn bookData now)
    | none =>
      match fetchFromISBNEndpoint env.isbnEndpoint with
      | some isbnData => (some isbnData, cacheBookInfo cache isbn isbnData now)
      | none => (none, cache)
  if useCache then
    match getCachedBookInfo cache isbn now with
    | some cachedData => (some cachedData, cache)
    | none => fromNetwork
  else
    fromNetwork

end OpenLibrary

/-- The providers invoked during one resolution, in invocation order
(recorded so the fallback-chain property is observable). -/
inductive Provider where
  | google
  | openLib
  deriving DecidableEq, Repr

/-- Behaviour of all provider endpoints on one resolution request. -/
structure ResolveEnv where
  googleBooks : EndpointOutcome
  openLibrary : OpenLibrary.Env
  deriving DecidableEq, Repr

/-- The response shape of `handleFetchBookInfo`:
`{success: true, book}` or `{success: false, error, isbn}`. -/
inductive FetchResult where
  | success (book : BookMetadata)
  | failure (error : String) (isbn : JStr)
  deriving DecidableEq, Repr

/-- `handleFetchBookInfo` (background worker): try Google Books first, fall
back to Open Library when it returns nothing, answer
`{success: false, error: 'Book metadata not found', isbn}` when both miss.
Both providers catch their own errors, so the surrounding `try/catch`
never fires.  The two `await`ed provider calls run sequentially over the
same persistent cache, so the cache state left by the primary call is the
one the secondary call reads.  Returns the response, the updated cache,
and the list of providers invoked. -/
def handleFetchBookInfo (env : ResolveEnv) (isbn : JStr) (cache : Cache) (now : Nat) :
    FetchResult × Cache × List Provider :=
  match GoogleBooks.fetchBookInfo env.googleBooks isbn true cache now with
  | (some bookInfo, cache') => (.success bookInfo, cache', [.google])
  | (none, cache') =>
    match OpenLibrary.fetchBookInfo env.openLibrary isbn true cache' now with
    | (some bookInfo, cache'') => (.success bookInfo, cache'', [.google, .openLib])
    | (none, cache'') =>
      (.failure "Book metadata not found" isbn, cache'', [.google, .openLib])

/-- The per-ISBN body of `handleGetDetectedBooks` (background worker): a
successful fetch yields its book; a failed fetch yields the minimal
not-found record `{isbn, title: 'Details Unavailable', authors: [],
description: '', thumbnail: '', source: 'none'}`. -/
def sentinelBook (isbn : JStr) : BookMetadata :=
  { isbn := isbn
    title := "Details Unavailable"
    authors := []
    description := ""
    thumbnail := ""
    publishedDate := ""
    publisher := ""
    pageCount := 0
    categories := []
    language := ""
    source := "none" }

/-- One element of the `Promise.all` map inside `handleGetDetectedBooks`:
resolve the ISBN through the provider chain and fall back to the
`sentinelBook` when that fails. -/
def resolveDetectedBook (env : ResolveEnv) (isbn : JStr) (cache : Cache) (now : Nat) :
    BookMetadata × Cache × List Provider :=
  match handleFetchBookInfo env isbn cache now with
  | (.success book, cache', trace) => (book, cache', trace)
  | (.failure _ _, cache', trace) => (sentinelBook isbn, cache', trace)

/-- A concrete metadata record, used to instantiate the stateful theorems
on concrete inputs. -/
def sampleBook : BookMetadata :=
  { isbn := str "0306406152"
    title := "Calculus of Variations"
    authors := ["I. M. Gelfand", "S. V. Fomin"]
    description := ""
    thumbnail := ""
    publishedDate := "2000"
    publisher := "Dover Publications"
    pageCount := 240
    categories := ["Mathematics"]
    language := ""
    source := "open-library" }

/-! ## Spec-side definitions

Definitions below transcribe the spec's arithmetic phrasing (weighted sums
over positions); the claims compare the source-derived validators against
them. -/

/-- The value of a decimal digit character. -/
def digitVal (c : Char) : Nat := c.toNat - 48

/-- Character at position `i` (spec-side positional access). -/
def charAt (s : JStr) (i : Nat) : Char := s.getD i ' '

/-- Spec §4.2: the ISBN-10 weighted sum — positions 0..8 weighted
`10 - position`, the check digit (value 10 for `'X'`) weighted 1. -/
def specSum10 (s : JStr) : Nat :=
  digitVal (charAt s 0) * 10 + digitVal (charAt s 1) * 9 + digitVal (charAt s 2) * 8 +
    digitVal (charAt s 3) * 7 + digitVal (charAt s 4) * 6 + digitVal (charAt s 5) * 5 +
    digitVal (charAt s 6) * 4 + digitVal (charAt s 7) * 3 + digitVal (charAt s 8) * 2 +
    (if charAt s 9 = 'X' then 10 else digitVal (charAt s 9))

/-- Spec §4.2: the ISBN-13 alternating 1/3-weighted sum, starting at
position offset `i`. -/
def specSum13 : JStr → Nat → Nat
  | [], _ => 0
  | c :: rest, i => digitVal c * (if i % 2 = 0 then 1 else 3) + specSum13 rest (i + 1)

example : normalizeISBN (str "978-0-13-468599-x") = str "978013468599X" := by decide
example : validateISBN10Checksum (str "0306406152") = true := by decide
example : validateISBN10Checksum (str "0306406150") = false := by decide
example : validateISBN10Checksum (str "043942089X") = true := by decide
example : validateISBN13Checksum (str "9780134685991") = true := by decide
example : validateISBN13Checksum (str "9780134685990") = false := by decide
example : isValidISBN (str "978-0-13-468599-1") = true := by decide
example : isValidISBN (str "1234567890") = false := by decide
example : convertISBN10ToISBN13 (str "0306406152") = some (str "9780306406157") := by decide
example : convertISBN10ToISBN13 (str "invalid") = none := by decide
example : formatISBN (str "9780134685991") = str "978-0-134-68599-1" := by decide
example : formatISBN (str "0134685991") = str "0-134-68599-1" := by decide
example : formatISBN (str "123") = str "123" := by decide
example : extractISBNs (str "Check out this book: ISBN: 978-0-13-468599-1") =
    [str "9780134685991"] := by decide
example : extractISBNs (str "ISBN-10: 0-306-40615-2 is a great book") =
    [str "0306406152"] := by decide
example : extractISBNs (str "Books: 9780134685991 and 0306406152") =
    [str "9780134685991", str "0306406152"] := by decide
example : extractISBNs (str "No ISBNs here: 1234567890") = [] := by decide
example : extractISBNs (str "Duplicate: 9780134685991 and 9780134685991") =
    [str "9780134685991"] := by decide
example : extractISBNs (str "Invalid checksum: 9780134685990 should not match") = [] := by
  decide

/-! ## Character-level lemmas -/

theorem char_toNat_inj {c d : Char} (h : c.toNat = d.toNat) : c = d :=
  Char.ext (UInt32.toNat.inj h)

theorem char_eq_iff_toNat {c d : Char} : c = d ↔ c.toNat = d.toNat :=
  ⟨fun h => h ▸ rfl, char_toNat_inj⟩

theorem char_toNat_ofNat {n : Nat} (h : n < 55296) : (Char.ofNat n).toNat = n := by
  have hv : n.isValidChar := Or.inl h
  rw [Char.ofNat, dif_pos hv]
  simp [Char.ofNatAux, Char.toNat, UInt32.toNat]

theorem toUpper_of_not_lower {c : Char} (h : ¬(97 ≤ c.toNat ∧ c.toNat ≤ 122)) :
    c.toUpper = c := by
  rw [Char.toUpper]
  exact if_neg (by exact fun hc => h ⟨hc.1, hc.2⟩)

theorem toNat_toUpper_of_lower {c : Char} (h1 : 97 ≤ c.toNat) (h2 : c.toNat ≤ 122) :
    c.toUpper.toNat = c.toNat - 32 := by
  rw [Char.toUpper, if_pos ⟨h1, h2⟩]
  exact char_toNat_ofNat (by omega)

theorem toUpper_toUpper (c : Char) : c.toUpper.toUpper = c.toUpper := by
  by_cases h : 97 ≤ c.toNat ∧ c.toNat ≤ 122
  · have h2 := toNat_toUpper_of_lower h.1 h.2
    exact toUpper_of_not_lower (by omega)
  · rw [toUpper_of_not_lower h, toUpper_of_not_lower h]

theorem uint32_le_iff {a b : UInt32} : a ≤ b ↔ a.toNat ≤ b.toNat :=
  Iff.rfl

theorem isSepChar_iff {c : Char} : isSepChar c = true ↔
    (c.toNat = 32 ∨ c.toNat = 9 ∨ c.toNat = 10 ∨ c.toNat = 11 ∨ c.toNat = 12 ∨
      c.toNat = 13 ∨ c.toNat = 45) := by
  simp only [isSepChar, Bool.or_eq_true, decide_eq_true_eq, char_eq_iff_toNat]
  rw [show (' ' : Char).toNat = 32 from rfl, show ('\t' : Char).toNat = 9 from rfl,
    show ('\n' : Char).toNat = 10 from rfl, show ('\x0b' : Char).toNat = 11 from rfl,
    show ('\x0c' : Char).toNat = 12 from rfl, show ('\r' : Char).toNat = 13 from rfl,
    show ('-' : Char).toNat = 45 from rfl]
  tauto

theorem char_isDigit_iff {c : Char} : c.isDigit = true ↔
    (48 ≤ c.toNat ∧ c.toNat ≤ 57) := by
  simp only [Char.isDigit, Bool.and_eq_true, decide_eq_true_eq, ge_iff_le, uint32_le_iff]
  exact Iff.rfl

theorem isSepChar_toUpper (c : Char) : isSepChar c.toUpper = isSepChar c := by
  by_cases h : 97 ≤ c.toNat ∧ c.toNat ≤ 122
  · have h2 := toNat_toUpper_of_lower h.1 h.2
    have hu : isSepChar c.toUpper = false := by
      cases hb : isSepChar c.toUpper with
      | false => rfl
      | true => exact absurd (isSepChar_iff.mp hb) (by omega)
    have hc : isSepChar c = false := by
      cases hb : isSepChar c with
      | false => rfl
      | true => exact absurd (isSepChar_iff.mp hb) (by omega)
    rw [hu, hc]
  · rw [toUpper_of_not_lower h]

theorem toUpper_of_isDigit {c : Char} (h : c.isDigit = true) : c.toUpper = c := by
  have := char_isDigit_iff.mp h
  exact toUpper_of_not_lower (by omega)

theorem isSepChar_of_isDigit {c : Char} (h : c.isDigit = true) : isSepChar c = false := by
  have := char_isDigit_iff.mp h
  cases hb : isSepChar c with
  | false => rfl
  | true => exact absurd (isSepChar_iff.mp hb) (by omega)

/-! ## Normalization lemmas -/

theorem normalizeISBN_idem (s : JStr) : normalizeISBN (normalizeISBN s) = normalizeISBN s := by
  unfold normalizeISBN
  have hfm : ∀ l : JStr,
      (l.map Char.toUpper).filter (fun c => !isSepChar c) =
        (l.filter (fun c => !isSepChar c)).map Char.toUpper := by
    intro l
    induction l with
    | nil => rfl
    | cons c rest ih =>
      simp only [List.map_cons, List.filter_cons, isSepChar_toUpper]
      cases hb : !isSepChar c <;> simp [hb, ih]
  rw [hfm, List.filter_filter]
  have : (fun c => !isSepChar c && !isSepChar c) = (fun c : Char => !isSepChar c) := by
    funext c; cases isSepChar c <;> rfl
  rw [this, List.map_map]
  have : Char.toUpper ∘ Char.toUpper = Char.toUpper := by
    funext c; exact toUpper_toUpper c
  rw [this]

theorem normalizeISBN_of_allDigits {s : JStr} (h : ∀ c ∈ s, c.isDigit = true) :
    normalizeISBN s = s := by
  unfold normalizeISBN
  have hf : s.filter (fun c => !isSepChar c) = s :=
    List.filter_eq_self.mpr (fun c hc => by rw [isSepChar_of_isDigit (h c hc)]; rfl)
  rw [hf]
  have hm : ∀ l : JStr, (∀ c ∈ l, c.isDigit = true) → l.map Char.toUpper = l := by
    intro l hl
    induction l with
    | nil => rfl
    | cons c rest ih =>
      simp only [List.map_cons, toUpper_of_isDigit (hl c (by simp)),
        ih (fun d hd => hl d (by simp [hd])), List.cons.injEq, and_self]
  exact hm s h

/-! ## Insertion-ordered-set lemmas -/

theorem contains_iff_mem {l : List JStr} {x : JStr} : l.contains x = true ↔ x ∈ l := by
  simp [List.contains]

theorem mem_insertNew {acc : List JStr} {a x : JStr} :
    x ∈ insertNew acc a ↔ x ∈ acc ∨ x = a := by
  unfold insertNew
  split
  · rename_i hc
    have ha := contains_iff_mem.mp hc
    constructor
    · exact fun h => Or.inl h
    · rintro (h | rfl)
      · exact h
      · exact ha
  · simp [List.mem_append]

theorem mem_foldl_insertNew (l : List JStr) (acc : List JStr) (x : JStr) :
    x ∈ l.foldl insertNew acc ↔ x ∈ acc ∨ x ∈ l := by
  induction l generalizing acc with
  | nil => simp
  | cons a l ih =>
    rw [List.foldl_cons, ih, mem_insertNew]
    simp only [List.mem_cons]
    tauto

theorem nodup_insertNew {acc : List JStr} {a : JStr} (h : acc.Nodup) :
    (insertNew acc a).Nodup := by
  unfold insertNew
  split
  · exact h
  · rename_i hc
    have hna : a ∉ acc := fun hmem => hc (contains_iff_mem.mpr hmem)
    rw [List.nodup_append]
    exact ⟨h, List.nodup_singleton a,
      fun x hx hxa => hna (List.mem_singleton.mp hxa ▸ hx)⟩

theorem nodup_foldl_insertNew (l : List JStr) (acc : List JStr) (h : acc.Nodup) :
    (l.foldl insertNew acc).Nodup := by
  induction l generalizing acc with
  | nil => exact h
  | cons a l ih =>
    rw [List.foldl_cons]
    exact ih _ (nodup_insertNew h)

theorem foldl_accept_eq (p : JStr → Bool) (f : JStr → JStr) (l : List JStr)
    (acc : List JStr) :
    l.foldl (fun acc m => if p (f m) && !acc.contains (f m) then acc ++ [f m] else acc) acc
      = ((l.map f).filter p).foldl insertNew acc := by
  induction l generalizing acc with
  | nil => rfl
  | cons a l ih =>
    rw [List.foldl_cons, List.map_cons, List.filter_cons]
    by_cases hp : p (f a) = true
    · by_cases hc : acc.contains (f a) = true
      · have hin : insertNew acc (f a) = acc := by unfold insertNew; rw [if_pos hc]
        have hm := contains_iff_mem.mp hc
        rw [if_pos hp, if_neg (by simp [hp, hm]), List.foldl_cons, hin, ih]
      · have hcf : acc.contains (f a) = false := by
          revert hc
          cases acc.contains (f a) <;> simp
        have hin : insertNew acc (f a) = acc ++ [f a] := by
          unfold insertNew
          rw [if_neg hc]
        have hm : f a ∉ acc := fun h => hc (contains_iff_mem.mpr h)
        rw [if_pos hp, if_pos (by simp [hp, hm]), List.foldl_cons, hin, ih]
    · rw [if_neg hp, if_neg (by simp [hp])]
      exact ih acc

theorem extractISBNs_eq_dedup (text : JStr) :
    extractISBNs text = dedupFirst (accepted13 text ++ accepted10 text) := by
  have h13 := foldl_accept_eq
    (fun i => decide (i.length = 13) && isValidISBN i)
    (fun m => normalizeISBN (stripLabel (str "13") m)) (matchAll13 text) ([] : List JStr)
  have h10 := foldl_accept_eq
    (fun i => decide (i.length = 10) && isValidISBN i)
    (fun m => normalizeISBN (stripLabel (str "10") m)) (matchAll10 text)
  simp only [extractISBNs, accepted13, accepted10, dedupFirst]
  rw [List.foldl_append, h13, h10]
  rfl

theorem dedupFirst_eq_foldl (l : List JStr) : dedupFirst l = l.foldl insertNew [] := rfl

theorem mem_extractISBNs (text : JStr) (x : JStr) :
    x ∈ extractISBNs text ↔ x ∈ accepted13 text ∨ x ∈ accepted10 text := by
  rw [extractISBNs_eq_dedup, dedupFirst_eq_foldl, mem_foldl_insertNew]
  simp [List.mem_append]

theorem extractISBNs_nodup (text : JStr) : (extractISBNs text).Nodup := by
  rw [extractISBNs_eq_dedup, dedupFirst_eq_foldl]
  exact nodup_foldl_insertNew _ _ List.nodup_nil

theorem mem_accepted_normalized_valid {text x : JStr}
    (h : x ∈ accepted13 text ∨ x ∈ accepted10 text) :
    normalizeISBN x = x ∧ isValidISBN x = true := by
  have hnorm : ∀ (l : List JStr) (f : JStr → JStr) (p : JStr → Bool),
      x ∈ ((l.map (fun m => normalizeISBN (f m))).filter p) →
        normalizeISBN x = x ∧ p x = true := by
    intro l f p hx
    have hmem := List.mem_filter.mp hx
    obtain ⟨m, _, rfl⟩ := List.mem_map.mp hmem.1
    exact ⟨normalizeISBN_idem _, hmem.2⟩
  rcases h with h | h
  · obtain ⟨h1, h2⟩ := hnorm _ _ _ h
    simp only [Bool.and_eq_true, decide_eq_true_eq] at h2
    exact ⟨h1, h2.2⟩
  · obtain ⟨h1, h2⟩ := hnorm _ _ _ h
    simp only [Bool.and_eq_true, decide_eq_true_eq] at h2
    exact ⟨h1, h2.2⟩

/-! ## Checksum characterizations -/

theorem parseDigit_of_isDigit {c : Char} (h : c.isDigit = true) :
    parseDigit c = some (c.toNat - 48) := by
  unfold parseDigit
  rw [if_pos h]

theorem isbn13sum_eq_specSum13 {s : JStr} (h : ∀ c ∈ s, c.isDigit = true) (i : Nat) :
    isbn13sum s i = some (specSum13 s i) := by
  induction s generalizing i with
  | nil => rfl
  | cons c rest ih =>
    have hc := h c (by simp)
    unfold isbn13sum specSum13
    rw [parseDigit_of_isDigit hc, ih (fun d hd => h d (by simp [hd])) (i + 1)]
    simp [digitVal, Option.bind]

theorem isbn13sum_eq_some {s : JStr} {i t : Nat} (h : isbn13sum s i = some t) :
    (∀ c ∈ s, c.isDigit = true) ∧ t = specSum13 s i := by
  induction s generalizing i t with
  | nil =>
    unfold isbn13sum at h
    injection h with h
    exact ⟨by simp, by rw [← h]; rfl⟩
  | cons c rest ih =>
    unfold isbn13sum at h
    cases hd : parseDigit c with
    | none => rw [hd] at h; simp [Option.bind] at h
    | some d =>
      rw [hd] at h
      cases hr : isbn13sum rest (i + 1) with
      | none => rw [hr] at h; simp [Option.bind] at h
      | some u =>
        rw [hr] at h
        simp only [Option.bind_eq_bind, Option.some_bind, Option.pure_def,
          Option.some.injEq] at h
        have hcd : c.isDigit = true := by
          by_contra hcd
          unfold parseDigit at hd
          rw [if_neg (by revert hcd; cases c.isDigit <;> simp)] at hd
          exact Option.noConfusion hd
        have hdval : d = c.toNat - 48 := by
          rw [parseDigit_of_isDigit hcd] at hd
          injection hd with hd
          exact hd.symm
        obtain ⟨hall, hu⟩ := ih hr
        refine ⟨fun e he => ?_, ?_⟩
        · rcases List.mem_cons.mp he with rfl | he
          · exact hcd
          · exact hall e he
        · unfold specSum13
          rw [← h, hu, hdval]
          rfl

theorem validateISBN13_iff {s : JStr} :
    validateISBN13Checksum s = true ↔
      s.length = 13 ∧ (∀ c ∈ s, c.isDigit = true) ∧ specSum13 s 0 % 10 = 0 := by
  unfold validateISBN13Checksum
  by_cases hlen : s.length = 13
  · rw [if_neg (by simp [hlen])]
    cases hsum : isbn13sum s 0 with
    | none =>
      simp only [Bool.false_eq_true, false_iff]
      rintro ⟨-, hall, -⟩
      rw [isbn13sum_eq_specSum13 hall 0] at hsum
      exact Option.noConfusion hsum
    | some t =>
      obtain ⟨hall, ht⟩ := isbn13sum_eq_some hsum
      subst ht
      simp [hlen, hall]
      exact fun _ => hall
  · rw [if_pos (by simp [hlen])]
    simp [hlen]

set_option maxHeartbeats 3200000 in
theorem validateISBN10_iff (s : JStr) :
    validateISBN10Checksum s = true ↔
      s.length = 10 ∧ (∀ c ∈ s.take 9, c.isDigit = true) ∧
      (charAt s 9 = 'X' ∨ (charAt s 9).isDigit = true) ∧ specSum10 s % 11 = 0 := by
  rcases s with _ | ⟨c0, _ | ⟨c1, _ | ⟨c2, _ | ⟨c3, _ | ⟨c4, _ | ⟨c5, _ | ⟨c6, _ | ⟨c7,
    _ | ⟨c8, _ | ⟨c9, rest⟩⟩⟩⟩⟩⟩⟩⟩⟩⟩
  · simp [validateISBN10Checksum]
  · simp [validateISBN10Checksum]
  · simp [validateISBN10Checksum]
  · simp [validateISBN10Checksum]
  · simp [validateISBN10Checksum]
  · simp [validateISBN10Checksum]
  · simp [validateISBN10Checksum]
  · simp [validateISBN10Checksum]
  · simp [validateISBN10Checksum]
  · simp [validateISBN10Checksum]
  · rcases rest with _ | ⟨c10, rest⟩
    · by_cases h0 : c0.isDigit = true
      · by_cases h1 : c1.isDigit = true
        · by_cases h2 : c2.isDigit = true
          · by_cases h3 : c3.isDigit = true
            · by_cases h4 : c4.isDigit = true
              · by_cases h5 : c5.isDigit = true
                · by_cases h6 : c6.isDigit = true
                  · by_cases h7 : c7.isDigit = true
                    · by_cases h8 : c8.isDigit = true
                      · by_cases hx : c9 = 'X'
                        · subst hx
                          simp [validateISBN10Checksum, parseDigit, h0, h1, h2, h3, h4,
                            h5, h6, h7, h8, charAt, specSum10, digitVal]
                        · by_cases h9 : c9.isDigit = true
                          · simp [validateISBN10Checksum, parseDigit, h0, h1, h2, h3,
                              h4, h5, h6, h7, h8, h9, hx, charAt, specSum10, digitVal]
                          · simp [validateISBN10Checksum, parseDigit, h0, h1, h2, h3,
                              h4, h5, h6, h7, h8, h9, hx, charAt]
                      · simp [validateISBN10Checksum, parseDigit, h0, h1, h2, h3, h4,
                          h5, h6, h7, h8]
                    · simp [validateISBN10Checksum, parseDigit, h0, h1, h2, h3, h4,
                        h5, h6, h7]
                  · simp [validateISBN10Checksum, parseDigit, h0, h1, h2, h3, h4, h5,
                      h6]
                · simp [validateISBN10Checksum, parseDigit, h0, h1, h2, h3, h4, h5]
              · simp [validateISBN10Checksum, parseDigit, h0, h1, h2, h3, h4]
            · simp [validateISBN10Checksum, parseDigit, h0, h1, h2, h3]
          · simp [validateISBN10Checksum, parseDigit, h0, h1, h2]
        · simp [validateISBN10Checksum, parseDigit, h0, h1]
      · simp [validateISBN10Checksum, parseDigit, h0]
    · rw [show validateISBN10Checksum
          (c0 :: c1 :: c2 :: c3 :: c4 :: c5 :: c6 :: c7 :: c8 :: c9 :: c10 :: rest) =
          false from rfl]
      simp

theorem specSum13_append (l1 l2 : JStr) (i : Nat) :
    specSum13 (l1 ++ l2) i = specSum13 l1 i + specSum13 l2 (i + l1.length) := by
  induction l1 generalizing i with
  | nil => simp [specSum13]
  | cons c rest ih =>
    have e1 : specSum13 ((c :: rest) ++ l2) i =
        digitVal c * (if i % 2 = 0 then 1 else 3) + specSum13 (rest ++ l2) (i + 1) := rfl
    have e2 : specSum13 (c :: rest) i =
        digitVal c * (if i % 2 = 0 then 1 else 3) + specSum13 rest (i + 1) := rfl
    rw [e1, e2, ih (i + 1), List.length_cons]
    rw [show i + 1 + rest.length = i + (rest.length + 1) from by omega]
    ring

theorem mem_str978_isDigit {c : Char} (hc : c ∈ str "978") : c.isDigit = true := by
  have h978 : str "978" = ['9', '7', '8'] := rfl
  rw [h978] at hc
  simp only [List.mem_cons, List.not_mem_nil, or_false] at hc
  rcases hc with rfl | rfl | rfl
  · decide
  · decide
  · decide

theorem convert_some_spec {x y : JStr} (h : convertISBN10ToISBN13 x = some y) :
    y = str "978" ++ (normalizeISBN x).take 9 ++
        [Char.ofNat (48 +
          (10 - specSum13 (str "978" ++ (normalizeISBN x).take 9) 0 % 10) % 10)] ∧
      y.length = 13 ∧ validateISBN13Checksum y = true := by
  by_cases hg : (normalizeISBN x).length = 10 ∧
      validateISBN10Checksum (normalizeISBN x) = true
  · obtain ⟨hlen, hval⟩ := hg
    have hdig9 : ∀ c ∈ (normalizeISBN x).take 9, c.isDigit = true :=
      ((validateISBN10_iff _).mp hval).2.1
    have hbase : ∀ c ∈ str "978" ++ (normalizeISBN x).take 9, c.isDigit = true := by
      intro c hc
      rcases List.mem_append.mp hc with hc | hc
      · exact mem_str978_isDigit hc
      · exact hdig9 c hc
    have hsum := isbn13sum_eq_specSum13 hbase 0
    unfold convertISBN10ToISBN13 at h
    rw [if_neg (by simp [hlen, hval])] at h
    simp only [hsum] at h
    set T := specSum13 (str "978" ++ (normalizeISBN x).take 9) 0 with hT
    have hy : str "978" ++ (normalizeISBN x).take 9 ++
        [Char.ofNat (48 + (10 - T % 10) % 10)] = y := Option.some.inj h
    rw [← hy]
    have hk : (10 - T % 10) % 10 < 10 := Nat.mod_lt _ (by omega)
    have hcdNat : (Char.ofNat (48 + (10 - T % 10) % 10)).toNat =
        48 + (10 - T % 10) % 10 := char_toNat_ofNat (by omega)
    have hcdDig : (Char.ofNat (48 + (10 - T % 10) % 10)).isDigit = true :=
      char_isDigit_iff.mpr (by omega)
    have hlenbase : (str "978" ++ (normalizeISBN x).take 9).length = 12 := by
      rw [List.length_append, List.length_take, hlen]
      rfl
    refine ⟨rfl, ?_, ?_⟩
    · rw [List.length_append, hlenbase]
      rfl
    · rw [validateISBN13_iff]
      refine ⟨by rw [List.length_append, hlenbase]; rfl, ?_, ?_⟩
      · intro c hc
        rcases List.mem_append.mp hc with hc | hc
        · exact hbase c hc
        · rw [List.mem_singleton.mp hc]
          exact hcdDig
      · rw [specSum13_append, hlenbase, ← hT]
        have hmod : T % 10 < 10 := Nat.mod_lt _ (by omega)
        simp only [specSum13, digitVal, hcdNat, if_true, Nat.add_zero]
        omega
  · exfalso
    have hcond : (decide ¬(normalizeISBN x).length = 10 ||
        !validateISBN10Checksum (normalizeISBN x)) = true := by
      by_cases hl : (normalizeISBN x).length = 10
      · have hv : validateISBN10Checksum (normalizeISBN x) = false := by
          revert hg
          cases validateISBN10Checksum (normalizeISBN x) <;> simp [hl]
        simp [hv]
      · simp [hl]
    unfold convertISBN10ToISBN13 at h
    rw [if_pos hcond] at h
    exact Option.noConfusion h

theorem convert_none_iff (x : JStr) :
    convertISBN10ToISBN13 x = none ↔
      ¬((normalizeISBN x).length = 10 ∧
        validateISBN10Checksum (normalizeISBN x) = true) := by
  constructor
  · intro h hg
    obtain ⟨hlen, hval⟩ := hg
    have hdig9 : ∀ c ∈ (normalizeISBN x).take 9, c.isDigit = true :=
      ((validateISBN10_iff _).mp hval).2.1
    have hbase : ∀ c ∈ str "978" ++ (normalizeISBN x).take 9, c.isDigit = true := by
      intro c hc
      rcases List.mem_append.mp hc with hc | hc
      · exact mem_str978_isDigit hc
      · exact hdig9 c hc
    unfold convertISBN10ToISBN13 at h
    rw [if_neg (by simp [hlen, hval])] at h
    simp only [isbn13sum_eq_specSum13 hbase 0] at h
    exact Option.noConfusion h
  · intro hg
    have hcond : (decide ¬(normalizeISBN x).length = 10 ||
        !validateISBN10Checksum (normalizeISBN x)) = true := by
      by_cases hl : (normalizeISBN x).length = 10
      · have hv : validateISBN10Checksum (normalizeISBN x) = false := by
          revert hg
          cases validateISBN10Checksum (normalizeISBN x) <;> simp [hl]
        simp [hv]
      · simp [hl]
    unfold convertISBN10ToISBN13
    rw [if_pos hcond]

/-! ## `isValidISBN` shape -/

theorem isValidISBN_cases (s : JStr) :
    isValidISBN s =
      (if (normalizeISBN s).length = 10 then validateISBN10Checksum (normalizeISBN s)
       else if (normalizeISBN s).length = 13 then
         ((str "978").isPrefixOf (normalizeISBN s) ||
             (str "979").isPrefixOf (normalizeISBN s)) &&
           validateISBN13Checksum (normalizeISBN s)
       else false) := by
  unfold isValidISBN
  by_cases h10 : (normalizeISBN s).length = 10
  · rw [if_pos h10, if_pos h10]
  · rw [if_neg h10, if_neg h10]
    by_cases h13 : (normalizeISBN s).length = 13
    · rw [if_pos h13, if_pos h13]
      cases hp1 : (str "978").isPrefixOf (normalizeISBN s) <;>
        cases hp2 : (str "979").isPrefixOf (normalizeISBN s) <;>
          simp [hp1, hp2]
    · rw [if_neg h13, if_neg h13]

/-! ## Formatting lemmas -/

theorem mem_normalizeISBN_fixed {s : JStr} {c : Char} (h : c ∈ normalizeISBN s) :
    isSepChar c = false ∧ c.toUpper = c := by
  unfold normalizeISBN at h
  obtain ⟨d, hd, rfl⟩ := List.mem_map.mp h
  have hds := List.of_mem_filter hd
  refine ⟨?_, toUpper_toUpper d⟩
  rw [isSepChar_toUpper]
  revert hds
  cases isSepChar d <;> simp

theorem normalizeISBN_eq_self {l : JStr}
    (h : ∀ c ∈ l, isSepChar c = false ∧ c.toUpper = c) : normalizeISBN l = l := by
  unfold normalizeISBN
  have hf : l.filter (fun c => !isSepChar c) = l :=
    List.filter_eq_self.mpr (fun c hc => by rw [(h c hc).1]; rfl)
  rw [hf]
  have hm : ∀ m : JStr, (∀ c ∈ m, c.toUpper = c) → m.map Char.toUpper = m := by
    intro m hm
    induction m with
    | nil => rfl
    | cons c rest ih =>
      simp only [List.map_cons, hm c (by simp), List.cons.injEq, true_and]
      exact ih (fun d hd => hm d (by simp [hd]))
  exact hm l (fun c hc => (h c hc).2)

theorem normalizeISBN_append (a b : JStr) :
    normalizeISBN (a ++ b) = normalizeISBN a ++ normalizeISBN b := by
  unfold normalizeISBN
  rw [List.filter_append, List.map_append]

theorem drop_take_drop (l : JStr) (a k : Nat) :
    (l.drop a).take k ++ l.drop (a + k) = l.drop a := by
  rw [show l.drop (a + k) = (l.drop a).drop k from by
    rw [List.drop_drop, Nat.add_comm]]
  exact List.take_append_drop k (l.drop a)

theorem normalizeISBN_slice_take {n : JStr} (hn : normalizeISBN n = n) (k : Nat) :
    normalizeISBN (n.take k) = n.take k :=
  normalizeISBN_eq_self (fun c hc =>
    mem_normalizeISBN_fixed (s := n) (by rw [hn]; exact List.take_subset k n hc))

theorem normalizeISBN_slice_drop_take {n : JStr} (hn : normalizeISBN n = n)
    (a k : Nat) : normalizeISBN ((n.drop a).take k) = (n.drop a).take k :=
  normalizeISBN_eq_self (fun c hc =>
    mem_normalizeISBN_fixed (s := n)
      (by rw [hn]; exact List.drop_subset a n (List.take_subset k (n.drop a) hc)))

theorem normalizeISBN_slice_drop {n : JStr} (hn : normalizeISBN n = n) (a : Nat) :
    normalizeISBN (n.drop a) = n.drop a :=
  normalizeISBN_eq_self (fun c hc =>
    mem_normalizeISBN_fixed (s := n) (by rw [hn]; exact List.drop_subset a n hc))

theorem normalizeISBN_hyphen : normalizeISBN ['-'] = [] := rfl

theorem format_roundtrip13 {n : JStr} (hn : normalizeISBN n = n)
    (hlen : n.length = 13) : normalizeISBN (formatISBN n) = n := by
  unfold formatISBN
  rw [hn, if_pos hlen]
  rw [normalizeISBN_append, normalizeISBN_append, normalizeISBN_append,
    normalizeISBN_append, normalizeISBN_append, normalizeISBN_append,
    normalizeISBN_append, normalizeISBN_append]
  rw [normalizeISBN_hyphen, normalizeISBN_slice_take hn,
    normalizeISBN_slice_drop_take hn, normalizeISBN_slice_drop_take hn,
    normalizeISBN_slice_drop_take hn, normalizeISBN_slice_drop hn]
  simp only [List.append_nil, List.nil_append, List.append_assoc]
  have e1 : (n.drop 7).take 5 ++ n.drop 12 = n.drop 7 := drop_take_drop n 7 5
  have e2 : (n.drop 4).take 3 ++ n.drop 7 = n.drop 4 := drop_take_drop n 4 3
  have e3 : (n.drop 3).take 1 ++ n.drop 4 = n.drop 3 := drop_take_drop n 3 1
  rw [e1, e2, e3]
  exact List.take_append_drop 3 n

theorem format_roundtrip10 {n : JStr} (hn : normalizeISBN n = n)
    (hlen : n.length = 10) : normalizeISBN (formatISBN n) = n := by
  unfold formatISBN
  rw [hn, if_neg (by omega), if_pos hlen]
  rw [normalizeISBN_append, normalizeISBN_append, normalizeISBN_append,
    normalizeISBN_append, normalizeISBN_append, normalizeISBN_append]
  rw [normalizeISBN_hyphen, normalizeISBN_slice_take hn,
    normalizeISBN_slice_drop_take hn, normalizeISBN_slice_drop_take hn,
    normalizeISBN_slice_drop hn]
  simp only [List.append_nil, List.nil_append, List.append_assoc]
  have e1 : (n.drop 4).take 5 ++ n.drop 9 = n.drop 4 := drop_take_drop n 4 5
  have e2 : (n.drop 1).take 3 ++ n.drop 4 = n.drop 1 := drop_take_drop n 1 3
  rw [e1, e2]
  exact List.take_append_drop 1 n

theorem format_other_length {s : JStr} (h10 : (normalizeISBN s).length ≠ 10)
    (h13 : (normalizeISBN s).length ≠ 13) : formatISBN s = s := by
  unfold formatISBN
  rw [if_neg h13, if_neg h10]

/-! ## Cache lemmas -/

theorem lookup_setCache_self (c : Cache) (k : JStr) (e : CacheEntry) :
    lookupCache (setCache c k e) k = some e := by
  induction c with
  | nil => simp [setCache, lookupCache]
  | cons kv rest ih =>
    obtain ⟨k', v'⟩ := kv
    unfold setCache
    by_cases hk : k' = k
    · rw [if_pos hk]
      unfold lookupCache
      rw [if_pos rfl]
    · rw [if_neg hk]
      unfold lookupCache
      rw [if_neg hk]
      exact ih

theorem getCachedBookInfo_put_now (c : Cache) (isbn : JStr) (m : BookMetadata)
    (t : Nat) : getCachedBookInfo (cacheBookInfo c isbn m t) isbn t = some m := by
  unfold getCachedBookInfo cacheBookInfo
  rw [lookup_setCache_self]
  simp [CACHE_TTL_MS]

theorem getCachedBookInfo_none_of_lookup_none {c : Cache} {isbn : JStr} {now : Nat}
    (h : lookupCache c isbn = none) : getCachedBookInfo c isbn now = none := by
  unfold getCachedBookInfo
  rw [h]

theorem getCachedBookInfo_of_lookup_some {c : Cache} {isbn : JStr} {now : Nat}
    {e : CacheEntry} (h : lookupCache c isbn = some e) :
    getCachedBookInfo c isbn now =
      (if now - e.timestamp > CACHE_TTL_MS then none else some e.data) := by
  unfold getCachedBookInfo
  rw [h]

/-! ## Resolver lemmas -/

theorem googleBooks_fetch_fail {o : EndpointOutcome} {isbn : JStr} {cache : Cache}
    {now : Nat} (hcache : getCachedBookInfo cache isbn now = none)
    (ho : o = EndpointOutcome.throws ∨ o = EndpointOutcome.miss) :
    GoogleBooks.fetchBookInfo o isbn true cache now = (none, cache) := by
  unfold GoogleBooks.fetchBookInfo
  rw [if_pos rfl, hcache]
  rcases ho with rfl | rfl
  · rfl
  · rfl

theorem openLibrary_fetch_hit {env : OpenLibrary.Env} {isbn : JStr} {cache : Cache}
    {now : Nat} {m : BookMetadata}
    (hcache : getCachedBookInfo cache isbn now = none)
    (hol : OpenLibrary.fetchFromBooksAPI env.booksAPI = some m ∨
      (OpenLibrary.fetchFromBooksAPI env.booksAPI = none ∧
        OpenLibrary.fetchFromISBNEndpoint env.isbnEndpoint = some m)) :
    OpenLibrary.fetchBookInfo env isbn true cache now =
      (some m, cacheBookInfo cache isbn m now) := by
  unfold OpenLibrary.fetchBookInfo
  rw [if_pos rfl, hcache]
  rcases hol with hb | ⟨hb, hi⟩
  · rw [hb]
  · rw [hb, hi]

theorem openLibrary_fetch_miss {env : OpenLibrary.Env} {isbn : JStr} {cache : Cache}
    {now : Nat}
    (hcache : getCachedBookInfo cache isbn now = none)
    (hb : OpenLibrary.fetchFromBooksAPI env.booksAPI = none)
    (hi : OpenLibrary.fetchFromISBNEndpoint env.isbnEndpoint = none) :
    OpenLibrary.fetchBookInfo env isbn true cache now = (none, cache) := by
  unfold OpenLibrary.fetchBookInfo
  rw [if_pos rfl, hcache, hb, hi]

theorem handleFetchBookInfo_secondary {env : ResolveEnv} {isbn : JStr} {cache : Cache}
    {now : Nat} {m : BookMetadata}
    (hcache : getCachedBookInfo cache isbn now = none)
    (hg : env.googleBooks = EndpointOutcome.throws ∨
      env.googleBooks = EndpointOutcome.miss)
    (hol : OpenLibrary.fetchFromBooksAPI env.openLibrary.booksAPI = some m ∨
      (OpenLibrary.fetchFromBooksAPI env.openLibrary.booksAPI = none ∧
        OpenLibrary.fetchFromISBNEndpoint env.openLibrary.isbnEndpoint = some m)) :
    handleFetchBookInfo env isbn cache now =
      (.success m, cacheBookInfo cache isbn m now, [.google, .openLib]) := by
  have h1 := googleBooks_fetch_fail hcache hg
  have h2 := openLibrary_fetch_hit hcache hol
  unfold handleFetchBookInfo
  simp only [h1, h2]

theorem handleFetchBookInfo_both_miss {env : ResolveEnv} {isbn : JStr} {cache : Cache}
    {now : Nat}
    (hcache : getCachedBookInfo cache isbn now = none)
    (hg : env.googleBooks = EndpointOutcome.throws ∨
      env.googleBooks = EndpointOutcome.miss)
    (hb : OpenLibrary.fetchFromBooksAPI env.openLibrary.booksAPI = none)
    (hi : OpenLibrary.fetchFromISBNEndpoint env.openLibrary.isbnEndpoint = none) :
    handleFetchBookInfo env isbn cache now =
      (.failure "Book metadata not found" isbn, cache, [.google, .openLib]) := by
  have h1 := googleBooks_fetch_fail hcache hg
  have h2 := openLibrary_fetch_miss hcache hb hi
  unfold handleFetchBookInfo
  simp only [h1, h2]

/-! ## Claim theorems -/

/-- C1: for every ISBN whose metadata is not cached, if the primary provider
fails — its request throws (network error or non-ok status, both caught
inside `fetchBookInfo`) or its response carries zero items — the resolver
still invokes the secondary provider, and a successful secondary result is
returned to the caller; the primary failure is never surfaced as a fatal
error. -/
theorem goodie_C1 (env : ResolveEnv) (isbn : JStr) (cache : Cache) (now : Nat)
    (hcache : getCachedBookInfo cache isbn now = none)
    (hg : env.googleBooks = EndpointOutcome.throws ∨
      env.googleBooks = EndpointOutcome.miss) :
    Provider.openLib ∈ (handleFetchBookInfo env isbn cache now).2.2 ∧
      (∀ m, (OpenLibrary.fetchFromBooksAPI env.openLibrary.booksAPI = some m ∨
          (OpenLibrary.fetchFromBooksAPI env.openLibrary.booksAPI = none ∧
            OpenLibrary.fetchFromISBNEndpoint env.openLibrary.isbnEndpoint = some m)) →
        (handleFetchBookInfo env isbn cache now).1 = FetchResult.success m) := by
  constructor
  · have h1 := googleBooks_fetch_fail hcache hg
    unfold handleFetchBookInfo
    cases hOL : OpenLibrary.fetchBookInfo env.openLibrary isbn true cache now with
    | mk res c' =>
      cases res with
      | none => simp [h1, hOL]
      | some b => simp [h1, hOL]
  · intro m hol
    rw [handleFetchBookInfo_secondary hcache hg hol]

theorem goodie_C1_witness :
    Provider.openLib ∈ (handleFetchBookInfo ⟨.throws, ⟨.hit sampleBook, .miss⟩⟩
        (str "0306406152") [] 0).2.2 ∧
      (handleFetchBookInfo ⟨.throws, ⟨.hit sampleBook, .miss⟩⟩
        (str "0306406152") [] 0).1 = FetchResult.success sampleBook := by
  have h := goodie_C1 ⟨.throws, ⟨.hit sampleBook, .miss⟩⟩ (str "0306406152") [] 0 rfl
    (Or.inl rfl)
  exact ⟨h.1, h.2 sampleBook (Or.inl rfl)⟩

/-- C2: when both providers miss, the per-ISBN resolution of
`handleGetDetectedBooks` yields the explicit not-found sentinel
(`source: none`, title `Details Unavailable`), never a thrown error; the
sentinel is not written to the metadata cache (the cache is unchanged and
still has no entry for the ISBN), so a later resolution attempt retries the
providers — a later attempt with a responsive secondary returns its result
rather than a remembered miss. -/
theorem goodie_C2 (env : ResolveEnv) (isbn : JStr) (cache : Cache) (now : Nat)
    (hlook : lookupCache cache isbn = none)
    (hg : env.googleBooks = EndpointOutcome.throws ∨
      env.googleBooks = EndpointOutcome.miss)
    (hb : OpenLibrary.fetchFromBooksAPI env.openLibrary.booksAPI = none)
    (hi : OpenLibrary.fetchFromISBNEndpoint env.openLibrary.isbnEndpoint = none) :
    (resolveDetectedBook env isbn cache now).1 = sentinelBook isbn ∧
      (resolveDetectedBook env isbn cache now).1.source = "none" ∧
      (resolveDetectedBook env isbn cache now).1.title = "Details Unavailable" ∧
      (resolveDetectedBook env isbn cache now).2.1 = cache ∧
      lookupCache (resolveDetectedBook env isbn cache now).2.1 isbn = none ∧
      (∀ env2 now2 m2, (env2.googleBooks = EndpointOutcome.throws ∨
          env2.googleBooks = EndpointOutcome.miss) →
        OpenLibrary.fetchFromBooksAPI env2.openLibrary.booksAPI = some m2 →
        (resolveDetectedBook env2 isbn (resolveDetectedBook env isbn cache now).2.1
          now2).1 = m2) := by
  have hcache : getCachedBookInfo cache isbn now = none :=
    getCachedBookInfo_none_of_lookup_none hlook
  have hmain : resolveDetectedBook env isbn cache now =
      (sentinelBook isbn, cache, [.google, .openLib]) := by
    unfold resolveDetectedBook
    rw [handleFetchBookInfo_both_miss hcache hg hb hi]
  rw [hmain]
  refine ⟨rfl, rfl, rfl, rfl, hlook, ?_⟩
  intro env2 now2 m2 hg2 hb2
  have hcache2 : getCachedBookInfo cache isbn now2 = none :=
    getCachedBookInfo_none_of_lookup_none hlook
  unfold resolveDetectedBook
  rw [handleFetchBookInfo_secondary hcache2 hg2 (Or.inl hb2)]

theorem goodie_C2_witness :
    (resolveDetectedBook ⟨.throws, ⟨.miss, .throws⟩⟩ (str "9780306406157") [] 5).1 =
        sentinelBook (str "9780306406157") ∧
      (resolveDetectedBook ⟨.throws, ⟨.miss, .throws⟩⟩ (str "9780306406157") [] 5).2.1
        = [] := by
  have h := goodie_C2 ⟨.throws, ⟨.miss, .throws⟩⟩ (str "9780306406157") [] 5
    rfl (Or.inl rfl) rfl rfl
  exact ⟨h.1, h.2.2.2.1⟩

/-- C3: every element of `extractISBNs text` is a normalized, checksum-valid
ISBN; no element appears twice; the output equals the first-occurrence
deduplication of the accepted candidates with the full ISBN-13 scan ordered
before the ISBN-10 scan; text with no pattern match yields the empty
sequence; and a string rejected by `isValidISBN` never appears in the
output. -/
theorem goodie_C3 (text : JStr) :
    (∀ x ∈ extractISBNs text, normalizeISBN x = x ∧ isValidISBN x = true) ∧
      (extractISBNs text).Nodup ∧
      extractISBNs text = dedupFirst (accepted13 text ++ accepted10 text) ∧
      (matchAll13 text = [] ∧ matchAll10 text = [] → extractISBNs text = []) ∧
      (∀ y, isValidISBN y = false → y ∉ extractISBNs text) := by
  refine ⟨?_, extractISBNs_nodup text, extractISBNs_eq_dedup text, ?_, ?_⟩
  · intro x hx
    exact mem_accepted_normalized_valid ((mem_extractISBNs text x).mp hx)
  · rintro ⟨h13, h10⟩
    rw [extractISBNs_eq_dedup]
    simp [accepted13, accepted10, h13, h10, dedupFirst]
  · intro y hy hmem
    have hv := (mem_accepted_normalized_valid ((mem_extractISBNs text y).mp hmem)).2
    rw [hy] at hv
    exact Bool.noConfusion hv

theorem goodie_C3_witness :
    str "1234567890" ∉ extractISBNs (str "Books: 9780134685991 and 0306406152") :=
  (goodie_C3 (str "Books: 9780134685991 and 0306406152")).2.2.2.2
    (str "1234567890") (by decide)

/-- C4: `isValidISBN` normalizes first; normalized length 10 yields the
ISBN-10 checksum verdict, normalized length 13 yields false unless the
string starts with `978` or `979` and otherwise the ISBN-13 checksum
verdict, and any other normalized length yields false (the function is
total — it always returns a boolean). -/
theorem goodie_C4 (s : JStr) :
    ((normalizeISBN s).length = 10 →
      isValidISBN s = validateISBN10Checksum (normalizeISBN s)) ∧
      ((normalizeISBN s).length = 13 →
        isValidISBN s = (((str "978").isPrefixOf (normalizeISBN s) ||
            (str "979").isPrefixOf (normalizeISBN s)) &&
          validateISBN13Checksum (normalizeISBN s))) ∧
      ((normalizeISBN s).length ≠ 10 → (normalizeISBN s).length ≠ 13 →
        isValidISBN s = false) := by
  refine ⟨fun h10 => ?_, fun h13 => ?_, fun h10 h13 => ?_⟩ <;> rw [isValidISBN_cases]
  · rw [if_pos h10]
  · rw [if_neg (by omega), if_pos h13]
  · rw [if_neg h10, if_neg h13]

theorem goodie_C4_witness :
    isValidISBN (str "0-306-40615-2") =
      validateISBN10Checksum (normalizeISBN (str "0-306-40615-2")) :=
  (goodie_C4 (str "0-306-40615-2")).1 (by decide)

/-- C5: the ISBN-10 validator returns true iff the string has length exactly
10, positions 0..8 are decimal digits weighted `10 - position`, position 9
is a decimal digit or `'X'` (value 10) weighted 1, and the weighted sum is
divisible by 11. -/
theorem goodie_C5 (s : JStr) :
    validateISBN10Checksum s = true ↔
      s.length = 10 ∧ (∀ c ∈ s.take 9, c.isDigit = true) ∧
        (charAt s 9 = 'X' ∨ (charAt s 9).isDigit = true) ∧ specSum10 s % 11 = 0 :=
  validateISBN10_iff s

/-- C6: `convertISBN10ToISBN13` returns null unless the normalized input has
length exactly 10 and passes the ISBN-10 checksum; a successful result is
`"978"`, the first 9 normalized characters, and the recomputed check digit
`(10 - (sum mod 10)) mod 10` under alternating 1/3 weights, and it always
satisfies the ISBN-13 checksum validator. -/
theorem goodie_C6 (x : JStr) :
    (convertISBN10ToISBN13 x = none ↔
      ¬((normalizeISBN x).length = 10 ∧
        validateISBN10Checksum (normalizeISBN x) = true)) ∧
      (∀ y, convertISBN10ToISBN13 x = some y →
        y = str "978" ++ (normalizeISBN x).take 9 ++
            [Char.ofNat (48 +
              (10 - specSum13 (str "978" ++ (normalizeISBN x).take 9) 0 % 10) % 10)] ∧
          y.length = 13 ∧ validateISBN13Checksum y = true) ∧
      ((normalizeISBN x).length = 10 ∧
          validateISBN10Checksum (normalizeISBN x) = true →
        ∃ y, convertISBN10ToISBN13 x = some y ∧ validateISBN13Checksum y = true) := by
  refine ⟨convert_none_iff x, fun y h => convert_some_spec h, ?_⟩
  intro hv
  cases hconv : convertISBN10ToISBN13 x with
  | none => exact absurd hv ((convert_none_iff x).mp hconv)
  | some y => exact ⟨y, rfl, (convert_some_spec hconv).2.2⟩

theorem goodie_C6_witness :
    validateISBN13Checksum (str "9780306406157") = true := by
  have h := (goodie_C6 (str "0306406152")).2.1 (str "9780306406157") (by decide)
  exact h.2.2

/-- C7: after `put(isbn, m)` at time `t`, an immediate `get(isbn)` at `t`
returns `m`; `get` is absent when no entry exists or when the entry's age
strictly exceeds the 24-hour TTL (lazy expiry); and `put` unconditionally
overwrites the entry for the key with a new entry stamped with the current
time. -/
theorem goodie_C7 (c : Cache) (isbn : JStr) (m : BookMetadata) (t now : Nat) :
    getCachedBookInfo (cacheBookInfo c isbn m t) isbn t = some m ∧
      (lookupCache c isbn = none → getCachedBookInfo c isbn now = none) ∧
      (∀ e, lookupCache c isbn = some e →
        getCachedBookInfo c isbn now =
          (if now - e.timestamp > CACHE_TTL_MS then none else some e.data)) ∧
      lookupCache (cacheBookInfo c isbn m t) isbn =
        some { data := m, timestamp := t } :=
  ⟨getCachedBookInfo_put_now c isbn m t,
    fun h => getCachedBookInfo_none_of_lookup_none h,
    fun _ he => getCachedBookInfo_of_lookup_some he,
    lookup_setCache_self c isbn _⟩

theorem goodie_C7_witness :
    getCachedBookInfo [] (str "0306406152") 7 = none :=
  (goodie_C7 [] (str "0306406152") sampleBook 0 7).2.1 rfl

/-- C8 counterexample: the record stored for a put has keys
`data` and `timestamp`, not `data` and `fetchedAt` as the claim states. -/
theorem goodie_C8_counterexample :
    lookupCache (cacheBookInfo [] (str "0306406152") sampleBook 5)
        (str "0306406152") = some { data := sampleBook, timestamp := 5 } ∧
      ¬((serializeCacheEntry { data := sampleBook, timestamp := 5 }).map Prod.fst =
        ["data", "fetchedAt"]) :=
  ⟨rfl, by decide⟩

/-- C8 (amended): every cache entry written by `put` is a plain record with
exactly a `data` field holding the metadata and a numeric `timestamp` field
(not `fetchedAt`) holding the fetch time. -/
theorem goodie_C8 (c : Cache) (isbn : JStr) (m : BookMetadata) (t : Nat) :
    lookupCache (cacheBookInfo c isbn m t) isbn =
        some { data := m, timestamp := t } ∧
      serializeCacheEntry { data := m, timestamp := t } =
        [("data", JVal.obj m), ("timestamp", JVal.num t)] :=
  ⟨lookup_setCache_self c isbn _, rfl⟩

/-- C9: when the normalized form has length 10 or 13, normalizing the
formatted normalized form returns the normalized string unchanged; for any
other normalized length `formatISBN` returns the original input unchanged. -/
theorem goodie_C9 (s : JStr) :
    ((normalizeISBN s).length = 10 ∨ (normalizeISBN s).length = 13 →
      normalizeISBN (formatISBN (normalizeISBN s)) = normalizeISBN s) ∧
      ((normalizeISBN s).length ≠ 10 → (normalizeISBN s).length ≠ 13 →
        formatISBN s = s) := by
  constructor
  · rintro (h | h)
    · exact format_roundtrip10 (normalizeISBN_idem s) h
    · exact format_roundtrip13 (normalizeISBN_idem s) h
  · exact fun h10 h13 => format_other_length h10 h13

theorem goodie_C9_witness :
    normalizeISBN (formatISBN (normalizeISBN (str "9780306406157"))) =
      normalizeISBN (str "9780306406157") :=
  (goodie_C9 (str "9780306406157")).1 (Or.inr (by decide))

/-- C10: the bare ISBN-13 checksum validator imposes no prefix restriction —
any 13-character all-digit string whose alternating 1/3-weighted sum is
divisible by 10 passes it, while `isValidISBN` rejects such a string when it
does not start with `978` or `979`, so the two functions disagree there. -/
theorem goodie_C10 (s : JStr) (hlen : s.length = 13)
    (hdig : ∀ c ∈ s, c.isDigit = true) (hsum : specSum13 s 0 % 10 = 0)
    (hp8 : (str "978").isPrefixOf s = false)
    (hp9 : (str "979").isPrefixOf s = false) :
    validateISBN13Checksum s = true ∧ isValidISBN s = false := by
  refine ⟨validateISBN13_iff.mpr ⟨hlen, hdig, hsum⟩, ?_⟩
  have hn : normalizeISBN s = s := normalizeISBN_of_allDigits hdig
  rw [isValidISBN_cases, hn, if_neg (by omega), if_pos hlen, hp8, hp9]
  rfl

theorem goodie_C10_witness :
    validateISBN13Checksum (str "1234567890128") = true ∧
      isValidISBN (str "1234567890128") = false :=
  goodie_C10 (str "1234567890128") (by decide) (by decide) (by decide)
    (by decide) (by decide)
